import Mathlib

/-!
Verification development for the archiver-mcp-server sample decoder and
statistics engine (`protobuf_parser.py`, `server.py`).

Values carried by samples are modelled as exact rationals (`ℚ`).  Every
numeric computation appearing in the claims (year-start epoch seconds,
`secondsintoyear + nano / 1e9`, means, medians, variances over small
literals) is exactly representable in IEEE double precision, where
rational and double arithmetic agree.  Python `float` NaN (and the
pandas missing-value marker) is modelled by the explicit `PyFloat.nan`
constructor; the Python `None` appearing in the summary report is
modelled by `Option`.
-/

namespace Archiver

/-- One sample record of the protobuf payload: a (possibly empty) array of
recorded values `val`, the seconds elapsed since the start of the payload
year, a nanosecond fraction, and severity/status quality codes
(fields `sample.val`, `sample.secondsintoyear`, `sample.nano`,
`sample.severity`, `sample.status` read by `parse_to_dataframe`). -/
structure PBSample where
  val : List ℚ
  secondsintoyear : ℤ
  nano : ℤ
  severity : ℤ
  status : ℤ
deriving DecidableEq

/-- Modelled from the spec: the payload header (the envelope's `info`
message).  The generated protobuf module `payload_pb2` is not among the
sources; per the spec the header carries the four-digit `year` the data
belongs to, and the year header may be absent (`none`). -/
structure PayloadInfo where
  year : Option ℤ
deriving DecidableEq

/-- Modelled from the spec: the parsed envelope — a header (possibly
absent as a whole) and an ordered list of sample records. -/
structure Payload where
  info : Option PayloadInfo
  sample : List PBSample
deriving DecidableEq

/-- Modelled from the spec: the byte buffer handed to the decoder, at the
granularity the decoder's behaviour depends on: the zero-length buffer, a
buffer serializing an envelope (with or without the year header), or a
buffer that does not parse as the expected envelope at all. -/
inductive Buffer where
  | empty : Buffer
  | wellFormed (info : Option PayloadInfo) (samples : List PBSample) : Buffer
  | malformed : Buffer
deriving DecidableEq

/-- The error raised by the protobuf runtime's `ParseFromString` when the
buffer does not parse (`google.protobuf.message.DecodeError`). -/
inductive ProtoError where
  | malformed : ProtoError
deriving DecidableEq

/-- Modelled from the spec: `payload_pb2.Payload().ParseFromString`.  A
zero-length buffer is a valid serialization of the envelope with every
field unset; a well-formed buffer yields its envelope; anything else
raises the protobuf `DecodeError`. -/
def ParseFromString : Buffer → Except ProtoError Payload
  | .empty => .ok { info := none, sample := [] }
  | .wellFormed i s => .ok { info := i, sample := s }
  | .malformed => .error .malformed

/-- Python exceptions that the decoder / statistics code can raise. -/
inductive PyError where
  | protoDecode : ProtoError → PyError
  | valueError : PyError
  | keyError : PyError
  | typeError : PyError
  | attributeError : PyError
deriving DecidableEq

/-- `payload.info.year` as Python evaluates it: a missing submessage or a
missing field reads as the protobuf default `0`. -/
def Payload.infoYear (p : Payload) : ℤ :=
  (p.info.map (fun i => i.year.getD 0)).getD 0

/-- Days from year 1 Jan 1 to year `y` Jan 1 in the proleptic Gregorian
calendar (CPython `datetime._days_before_year`). -/
def daysBeforeYear (y : ℤ) : ℤ :=
  365 * (y - 1) + (y - 1) / 4 - (y - 1) / 100 + (y - 1) / 400

/-- Unix epoch second count of `y`-01-01T00:00:00Z, the value of
`datetime(year, 1, 1, tzinfo=timezone.utc).timestamp()`. -/
def yearEpochSeconds (y : ℤ) : ℤ :=
  86400 * (daysBeforeYear y - daysBeforeYear 1970)

/-- One row of the resulting DataFrame. -/
structure Row where
  timestamp : ℚ
  value : Option ℚ
  severity : ℤ
  status : ℤ
deriving DecidableEq

/-- The DataFrame produced by `parse_to_dataframe`, together with the
payload year it was decoded against. -/
structure Frame where
  year : ℤ
  rows : List Row
deriving DecidableEq

/-- `timestamp = base_date.timestamp() + sample.secondsintoyear +
(sample.nano / 1e9)` (line 30 of `protobuf_parser.py`). -/
def sampleTimestamp (base : ℚ) (s : PBSample) : ℚ :=
  base + (s.secondsintoyear : ℚ) + (s.nano : ℚ) / 1000000000

/-- Lowest epoch-second value `datetime.fromtimestamp` accepts with
`tz=timezone.utc` (0001-01-01T00:00:00Z). -/
def tsMin : ℚ := -62135596800

/-- One past the highest epoch-second range of `datetime.fromtimestamp`
(year 10000 start); at or beyond it the conversion raises. -/
def tsMax : ℚ := 253402300800

/-- Whether `datetime.fromtimestamp(ts, tz=timezone.utc)` succeeds. -/
def tsInRange (t : ℚ) : Prop :=
  tsMin ≤ t ∧ t < tsMax

instance (t : ℚ) : Decidable (tsInRange t) :=
  inferInstanceAs (Decidable (_ ∧ _))

/-- The record appended for one sample: the derived timestamp, the scalar
value (`sample.val[0] if len(sample.val) > 0 else None`), and the
pass-through severity and status codes. -/
def rowOfSample (base : ℚ) (s : PBSample) : Row :=
  { timestamp := sampleTimestamp base s
    value := s.val.head?
    severity := s.severity
    status := s.status }

/-- `ProtobufParser.parse_to_dataframe`: parse the buffer, read the year
(defaulting to 0 when the header is missing), build
`datetime(year, 1, 1, tzinfo=utc)` — which raises `ValueError` unless
`1 ≤ year ≤ 9999` — and convert each sample to a row;
`datetime.fromtimestamp` raises when a derived timestamp is outside the
representable datetime range. -/
def parse_to_dataframe (b : Buffer) : Except PyError Frame :=
  match ParseFromString b with
  | .error e => .error (.protoDecode e)
  | .ok payload =>
    let year := payload.infoYear
    if 1 ≤ year ∧ year ≤ 9999 then
      let base : ℚ := (yearEpochSeconds year : ℚ)
      if ∀ s ∈ payload.sample, tsInRange (sampleTimestamp base s) then
        .ok { year := year, rows := payload.sample.map (rowOfSample base) }
      else .error .valueError
    else .error .valueError

/-- A Python float as it appears in the reports: either NaN (the pandas
missing-value marker, also produced by aggregating an empty selection) or
an actual number.  The code's `std` is modelled by the sample variance
(its square): the square root is a monotone bijection on the
nonnegative reals and NaN-ness is preserved, which is all the spec's
claims about `std` concern. -/
inductive PyFloat where
  | nan : PyFloat
  | num : ℚ → PyFloat
deriving DecidableEq

/-- `float(x)` applied to one cell of a float64 column: an absent value
is the NaN marker. -/
def pyOfOpt : Option ℚ → PyFloat
  | none => .nan
  | some q => .num q

/-- The values of the non-absent (non-NaN) samples, in decode order —
what every pandas aggregation with its default `skipna=True` sees. -/
def presentValues (rows : List Row) : List ℚ :=
  rows.filterMap (fun r => r.value)

/-- `Series.mean()` over a float64 column whose present values are `l`:
NaN when no value is present, the arithmetic mean otherwise. -/
def pandasMean (l : List ℚ) : PyFloat :=
  if l.length = 0 then .nan else .num (l.sum / (l.length : ℚ))

/-- Sorted copy of the present values (median is computed on it).  Any
correct ascending sort of a multiset of rationals yields the same list,
so a structural insertion sort stands in for the library sort. -/
def sortedVals (l : List ℚ) : List ℚ :=
  List.insertionSort (fun a b => a ≤ b) l

/-- `Series.median()`: NaN when no value is present; the middle element
of the sorted present values for an odd count; the average of the two
middle elements for an even count. -/
def pandasMedian (l : List ℚ) : PyFloat :=
  let s := sortedVals l
  let n := s.length
  if n = 0 then .nan
  else if n % 2 = 1 then .num (s.getD (n / 2) 0)
  else .num ((s.getD (n / 2 - 1) 0 + s.getD (n / 2) 0) / 2)

/-- The square of `Series.std()` (sample standard deviation, `ddof=1`):
NaN when fewer than two values are present, otherwise the sum of squared
deviations from the mean divided by `n - 1`. -/
def pandasVarSq (l : List ℚ) : PyFloat :=
  let n := l.length
  if n ≤ 1 then .nan
  else
    let m := l.sum / (n : ℚ)
    .num ((l.map (fun x => (x - m) ^ 2)).sum / ((n : ℚ) - 1))

/-- `Series.min()`: NaN when no value is present. -/
def pandasMin (l : List ℚ) : PyFloat :=
  match l with
  | [] => .nan
  | x :: xs => .num (xs.foldl min x)

/-- `Series.max()`: NaN when no value is present. -/
def pandasMax (l : List ℚ) : PyFloat :=
  match l with
  | [] => .nan
  | x :: xs => .num (xs.foldl max x)

/-- The `statistics` block of `get_pv_statistics_tool`. -/
structure Statistics where
  count : ℕ
  mean : PyFloat
  median : PyFloat
  var : PyFloat
  min : PyFloat
  max : PyFloat
  first_value : PyFloat
  last_value : PyFloat
deriving DecidableEq

/-- The `data_quality` block: the null count and the severity
distribution (`value_counts`, a mapping from severity code to its
occurrence count over ALL samples). -/
structure DataQuality where
  null_count : ℕ
  severity_distribution : ℤ → ℕ

/-- The full statistics report of `get_pv_statistics_tool`. -/
structure StatsReport where
  statistics : Statistics
  data_quality : DataQuality

/-- `df['severity'].value_counts().to_dict()` as a counting function. -/
def severityDistribution (rows : List Row) : ℤ → ℕ :=
  fun sev => rows.countP (fun r => decide (r.severity = sev))

/-- The statistics computation of `get_pv_statistics_tool` (server.py
lines 162-181), after the raw buffer has been fetched.  On an empty
DataFrame, `df['value']` raises `KeyError` (the frame has no columns).
When every value is absent the column has object dtype, the aggregations
return NaN, and `float(df['value'].iloc[0])` is `float(None)`, raising
`TypeError`.  Otherwise the column is float64 (absent cells are NaN) and
the report is produced; `first_value`/`last_value` read the literal
first/last row. -/
def get_pv_statistics (b : Buffer) : Except PyError StatsReport :=
  match parse_to_dataframe b with
  | .error e => .error e
  | .ok f =>
    if f.rows = [] then .error .keyError
    else
      let present := presentValues f.rows
      if present = [] then .error .typeError
      else
        .ok
          { statistics :=
              { count := f.rows.length
                mean := pandasMean present
                median := pandasMedian present
                var := pandasVarSq present
                min := pandasMin present
                max := pandasMax present
                first_value := pyOfOpt (f.rows.head?.bind (fun r => r.value))
                last_value := pyOfOpt (f.rows.getLast?.bind (fun r => r.value)) }
            data_quality :=
              { null_count := f.rows.countP (fun r => r.value.isNone)
                severity_distribution := severityDistribution f.rows } }

/-- The terse summary of `get_pv_data_tool` with `format="summary"`
(server.py lines 122-132): only `sample_count`, `mean`, `std`, `min`,
`max`.  Each statistic is guarded by `if len(df) > 0 else None`
(modelled by `Option`), so an empty frame yields `none` fields and an
all-absent frame yields NaN fields; neither fails. -/
structure Summary where
  sample_count : ℕ
  mean : Option PyFloat
  var : Option PyFloat
  min : Option PyFloat
  max : Option PyFloat
deriving DecidableEq

/-- The summary computation of `get_pv_data_tool` for
`format="summary"`. -/
def get_pv_data_summary (b : Buffer) : Except PyError Summary :=
  match parse_to_dataframe b with
  | .error e => .error e
  | .ok f =>
    let present := presentValues f.rows
    .ok
      { sample_count := f.rows.length
        mean := if f.rows.length > 0 then some (pandasMean present) else none
        var := if f.rows.length > 0 then some (pandasVarSq present) else none
        min := if f.rows.length > 0 then some (pandasMin present) else none
        max := if f.rows.length > 0 then some (pandasMax present) else none }

/-- Observer: the `statistics` block of a statistics result, when the
request succeeded. -/
def statsOf : Except PyError StatsReport → Option Statistics
  | .ok r => some r.statistics
  | .error _ => none

/-- Observer: the `null_count` of a statistics result. -/
def nullCountOf : Except PyError StatsReport → Option ℕ
  | .ok r => some r.data_quality.null_count
  | .error _ => none

/-- Observer: one entry of the severity distribution of a statistics
result. -/
def sevCountOf (e : Except PyError StatsReport) (sev : ℤ) : Option ℕ :=
  match e with
  | .ok r => some (r.data_quality.severity_distribution sev)
  | .error _ => none

/-- The dictionary `ProtobufParser.parse_to_dict` promises to return. -/
structure PDict where
  timestamps : List ℚ
  values : List (Option ℚ)
  severities : List ℤ
  statuses : List ℤ
  count : ℕ
deriving DecidableEq

/-- `ProtobufParser.parse_to_dict` (protobuf_parser.py lines 46-65).  It
evaluates `df['timestamp'].dt.isoformat()`: on an empty frame
`df['timestamp']` raises `KeyError` (no columns); on a nonempty frame the
`.dt` accessor (`pandas DatetimeProperties`) has NO `isoformat` method —
pandas offers `strftime`/`isocalendar`/`to_pydatetime` but no
`isoformat` — so the call raises `AttributeError` before any dictionary
is built. -/
def parse_to_dict (b : Buffer) : Except PyError PDict :=
  match parse_to_dataframe b with
  | .error e => .error e
  | .ok f =>
    if f.rows = [] then .error .keyError
    else .error .attributeError

/-- Fallback row used with `List.getD` (never selected under an
in-bounds index). -/
def defaultRow : Row :=
  { timestamp := 0, value := none, severity := 0, status := 0 }

/-- Fallback sample used with `List.getD` (never selected under an
in-bounds index). -/
def defaultSample : PBSample :=
  { val := [], secondsintoyear := 0, nano := 0, severity := 0, status := 0 }

/-! Concrete inputs used by witnesses and counterexamples. -/

/-- Samples of the C1 witness buffer: one at the year start, one at
1.5 seconds in. -/
def samplesC1 : List PBSample :=
  [{ val := [1], secondsintoyear := 0, nano := 0, severity := 0, status := 0 },
   { val := [2], secondsintoyear := 1, nano := 500000000, severity := 0, status := 0 }]

/-- C1 witness buffer: year 2024 with `samplesC1`. -/
def bC1 : Buffer := Buffer.wellFormed (some { year := some 2024 }) samplesC1

/-- The frame `bC1` decodes to. -/
def fC1 : Frame :=
  { year := 2024
    rows := [{ timestamp := 1704067200, value := some 1, severity := 0, status := 0 },
             { timestamp := 1704067200 + 1 + 1 / 2, value := some 2, severity := 0, status := 0 }] }

/-- C2 witness buffer: a series of 3 samples, all with an absent value. -/
def bC2 : Buffer :=
  Buffer.wellFormed (some { year := some 2024 })
    [{ val := [], secondsintoyear := 0, nano := 0, severity := 0, status := 0 },
     { val := [], secondsintoyear := 1, nano := 0, severity := 0, status := 0 },
     { val := [], secondsintoyear := 2, nano := 0, severity := 0, status := 0 }]

/-- The frame `bC2` decodes to: 3 rows, every value absent. -/
def fC2 : Frame :=
  { year := 2024
    rows := [{ timestamp := 1704067200, value := none, severity := 0, status := 0 },
             { timestamp := 1704067201, value := none, severity := 0, status := 0 },
             { timestamp := 1704067202, value := none, severity := 0, status := 0 }] }

/-- C3 buffer: the first sample's value is absent, a later sample is
present with value 5. -/
def bC3 : Buffer :=
  Buffer.wellFormed (some { year := some 2024 })
    [{ val := [], secondsintoyear := 0, nano := 0, severity := 0, status := 0 },
     { val := [5], secondsintoyear := 1, nano := 0, severity := 0, status := 0 }]

/-- The frame `bC3` decodes to. -/
def fC3 : Frame :=
  { year := 2024
    rows := [{ timestamp := 1704067200, value := none, severity := 0, status := 0 },
             { timestamp := 1704067201, value := some 5, severity := 0, status := 0 }] }

/-- C5 witness buffer: exactly one present value (7), preceded by an
absent-valued sample. -/
def bC5 : Buffer :=
  Buffer.wellFormed (some { year := some 2024 })
    [{ val := [], secondsintoyear := 0, nano := 0, severity := 0, status := 0 },
     { val := [7], secondsintoyear := 1, nano := 0, severity := 0, status := 0 }]

/-- The frame `bC5` decodes to. -/
def fC5 : Frame :=
  { year := 2024
    rows := [{ timestamp := 1704067200, value := none, severity := 0, status := 0 },
             { timestamp := 1704067201, value := some 7, severity := 0, status := 0 }] }

/-- C6 witness buffer: one record with an empty value array (severity 7,
status 8) and one with a three-element array (waveform). -/
def bC6 : Buffer :=
  Buffer.wellFormed (some { year := some 2024 })
    [{ val := [], secondsintoyear := 0, nano := 0, severity := 7, status := 8 },
     { val := [3, 4, 5], secondsintoyear := 1, nano := 0, severity := 9, status := 10 }]

/-- The frame `bC6` decodes to. -/
def fC6 : Frame :=
  { year := 2024
    rows := [{ timestamp := 1704067200, value := none, severity := 7, status := 8 },
             { timestamp := 1704067201, value := some 3, severity := 9, status := 10 }] }

/-- C8 counterexample buffer: a present value (1) followed by an
absent-valued sample, so the literal last sample is absent. -/
def bC8 : Buffer :=
  Buffer.wellFormed (some { year := some 2024 })
    [{ val := [1], secondsintoyear := 0, nano := 0, severity := 0, status := 0 },
     { val := [], secondsintoyear := 1, nano := 0, severity := 0, status := 0 }]

/-- The frame `bC8` decodes to. -/
def fC8 : Frame :=
  { year := 2024
    rows := [{ timestamp := 1704067200, value := some 1, severity := 0, status := 0 },
             { timestamp := 1704067201, value := none, severity := 0, status := 0 }] }

/-- C8 witness buffer: present values 3, 1, 4, 2 (unsorted, an even
count) with an absent-valued sample in the middle. -/
def bC8w : Buffer :=
  Buffer.wellFormed (some { year := some 2024 })
    [{ val := [3], secondsintoyear := 0, nano := 0, severity := 0, status := 0 },
     { val := [1], secondsintoyear := 1, nano := 0, severity := 0, status := 0 },
     { val := [], secondsintoyear := 2, nano := 0, severity := 0, status := 0 },
     { val := [4], secondsintoyear := 3, nano := 0, severity := 0, status := 0 },
     { val := [2], secondsintoyear := 4, nano := 0, severity := 0, status := 0 }]

/-- The frame `bC8w` decodes to. -/
def fC8w : Frame :=
  { year := 2024
    rows := [{ timestamp := 1704067200, value := some 3, severity := 0, status := 0 },
             { timestamp := 1704067201, value := some 1, severity := 0, status := 0 },
             { timestamp := 1704067202, value := none, severity := 0, status := 0 },
             { timestamp := 1704067203, value := some 4, severity := 0, status := 0 },
             { timestamp := 1704067204, value := some 2, severity := 0, status := 0 }]}

/-- C9 counterexample buffer: a decodable envelope with zero samples. -/
def bC9 : Buffer := Buffer.wellFormed (some { year := some 2024 }) []

/-- C9 witness buffer: two samples, both with an absent value. -/
def bC9w : Buffer :=
  Buffer.wellFormed (some { year := some 2024 })
    [{ val := [], secondsintoyear := 0, nano := 0, severity := 0, status := 0 },
     { val := [], secondsintoyear := 1, nano := 0, severity := 0, status := 0 }]

/-- The frame `bC9w` decodes to. -/
def fC9w : Frame :=
  { year := 2024
    rows := [{ timestamp := 1704067200, value := none, severity := 0, status := 0 },
             { timestamp := 1704067201, value := none, severity := 0, status := 0 }] }

/-- C10 failing input: a decodable buffer with one present-valued
sample. -/
def bC10 : Buffer :=
  Buffer.wellFormed (some { year := some 2024 })
    [{ val := [1], secondsintoyear := 0, nano := 0, severity := 0, status := 0 }]

/-! Helper lemmas shared by the claim theorems. -/

/-- Destructuring a successful decode: the frame's year is the envelope's
(defaulted) year and its rows are the per-sample records in order. -/
theorem parse_ok_elim (info : Option PayloadInfo) (samples : List PBSample) (f : Frame)
    (hp : parse_to_dataframe (Buffer.wellFormed info samples) = .ok f) :
    f.year = (Payload.mk info samples).infoYear ∧
    f.rows = samples.map (rowOfSample ((yearEpochSeconds f.year : ℤ) : ℚ)) := by
  simp only [parse_to_dataframe, ParseFromString] at hp
  split at hp
  · split at hp
    · injection hp with hp
      subst hp
      exact ⟨rfl, rfl⟩
    · simp at hp
  · simp at hp

/-- A frame whose rows all carry an absent value has no present values. -/
theorem presentValues_eq_nil (rows : List Row) (h : ∀ r ∈ rows, r.value = none) :
    presentValues rows = [] := by
  simp only [presentValues, List.filterMap_eq_nil_iff]
  exact h

/-- The statistics request fails (with the `KeyError` of the missing
column or the `TypeError` of `float(None)`) whenever every decoded value
is absent — in particular on an empty frame. -/
theorem stats_fails_of_allAbsent (b : Buffer) (f : Frame)
    (hp : parse_to_dataframe b = .ok f)
    (h : ∀ r ∈ f.rows, r.value = none) :
    get_pv_statistics b = .error .keyError ∨ get_pv_statistics b = .error .typeError := by
  have hpres : presentValues f.rows = [] := presentValues_eq_nil f.rows h
  by_cases hrow : f.rows = []
  · left
    simp only [get_pv_statistics, hp]
    rw [if_pos hrow]
  · right
    simp only [get_pv_statistics, hp]
    rw [if_neg hrow, if_pos hpres]

/-- Evaluation of a successful statistics request: when at least one
value is present the report is produced, with every field as computed by
the code. -/
theorem stats_ok_eval (b : Buffer) (f : Frame)
    (hp : parse_to_dataframe b = .ok f) (hne : presentValues f.rows ≠ []) :
    get_pv_statistics b = Except.ok
      { statistics :=
          { count := f.rows.length
            mean := pandasMean (presentValues f.rows)
            median := pandasMedian (presentValues f.rows)
            var := pandasVarSq (presentValues f.rows)
            min := pandasMin (presentValues f.rows)
            max := pandasMax (presentValues f.rows)
            first_value := pyOfOpt (f.rows.head?.bind (fun r => r.value))
            last_value := pyOfOpt (f.rows.getLast?.bind (fun r => r.value)) }
        data_quality :=
          { null_count := f.rows.countP (fun r => r.value.isNone)
            severity_distribution := severityDistribution f.rows } } := by
  have hrow : f.rows ≠ [] := by
    intro h
    exact hne (by simp [presentValues, h])
  simp only [get_pv_statistics, hp]
  rw [if_neg hrow, if_neg hne]

/-- Indexing the mapped rows of a decode under an in-bounds index. -/
theorem getD_map_row (samples : List PBSample) (base : ℚ) (i : ℕ)
    (hi : i < samples.length) :
    (samples.map (rowOfSample base)).getD i defaultRow
      = rowOfSample base (samples.getD i defaultSample) := by
  rw [List.getD_eq_getElem?_getD, List.getD_eq_getElem?_getD, List.getElem?_map,
    List.getElem?_eq_getElem hi]
  rfl

/-! Claim theorems. -/

/-- C1: for every decoded record, the sample's timestamp equals
`base + secondsIntoYear + nanos / 1_000_000_000`, where `base` is the
Unix epoch second count of `year`-01-01T00:00:00Z (all quantities of the
claim's instances are exactly representable, so the exact-rational model
agrees with double-precision arithmetic on them). -/
theorem C1_timestamp_derivation (info : Option PayloadInfo) (samples : List PBSample)
    (f : Frame) (hp : parse_to_dataframe (Buffer.wellFormed info samples) = .ok f)
    (i : ℕ) (hi : i < samples.length) :
    (f.rows.getD i defaultRow).timestamp
      = (yearEpochSeconds f.year : ℚ)
        + ((samples.getD i defaultSample).secondsintoyear : ℚ)
        + ((samples.getD i defaultSample).nano : ℚ) / 1000000000 := by
  obtain ⟨hy, hrows⟩ := parse_ok_elim info samples f hp
  rw [hrows, getD_map_row samples _ i hi]
  rfl

/-- Witness for C1: a year-2024 payload; the record with
`secondsintoyear = 0, nano = 0` decodes to timestamp 1704067200
(2024-01-01T00:00:00Z exactly) and the record with
`secondsintoyear = 1, nano = 500000000` to exactly 1.5 seconds after the
year start. -/
theorem C1_timestamp_derivation_witness :
    yearEpochSeconds 2024 = 1704067200 ∧
    parse_to_dataframe bC1 = Except.ok fC1 ∧
    (fC1.rows.getD 0 defaultRow).timestamp = 1704067200 ∧
    (fC1.rows.getD 1 defaultRow).timestamp = 1704067200 + 1 + 1 / 2 := by
  have hp : parse_to_dataframe bC1 = Except.ok fC1 := by
    norm_num [parse_to_dataframe, ParseFromString, bC1, samplesC1, fC1, Payload.infoYear,
      yearEpochSeconds, daysBeforeYear, rowOfSample, sampleTimestamp, tsInRange,
      tsMin, tsMax]
  refine ⟨by decide, hp, ?_, ?_⟩
  · rw [C1_timestamp_derivation (some { year := some 2024 }) samplesC1 fC1 hp 0
      (by norm_num [samplesC1])]
    norm_num [samplesC1, fC1, yearEpochSeconds, daysBeforeYear]
  · rw [C1_timestamp_derivation (some { year := some 2024 }) samplesC1 fC1 hp 1
      (by norm_num [samplesC1])]
    norm_num [samplesC1, fC1, yearEpochSeconds, daysBeforeYear]

/-- C2: for every series with zero samples or with every sample's value
absent, the statistics operation fails — raising the `KeyError` of the
missing column or the `TypeError` of `float(None)`, surfaced to the
caller as the failure the spec names `EmptyOrAllAbsentError` — rather
than returning zero or NaN as a successful report. -/
theorem C2_stats_fail_empty_or_allAbsent (b : Buffer) (f : Frame)
    (hp : parse_to_dataframe b = .ok f)
    (h : f.rows = [] ∨ ∀ r ∈ f.rows, r.value = none) :
    get_pv_statistics b = Except.error PyError.keyError ∨
    get_pv_statistics b = Except.error PyError.typeError := by
  apply stats_fails_of_allAbsent b f hp
  rcases h with h | h
  · intro r hr
    rw [h] at hr
    cases hr
  · exact h

/-- Witness for C2: the series of 3 samples, all with absent value,
fails. -/
theorem C2_stats_fail_empty_or_allAbsent_witness :
    get_pv_statistics bC2 = Except.error PyError.keyError ∨
    get_pv_statistics bC2 = Except.error PyError.typeError := by
  have hp : parse_to_dataframe bC2 = Except.ok fC2 := by
    norm_num [parse_to_dataframe, ParseFromString, bC2, fC2, Payload.infoYear,
      yearEpochSeconds, daysBeforeYear, rowOfSample, sampleTimestamp, tsInRange,
      tsMin, tsMax]
  refine C2_stats_fail_empty_or_allAbsent bC2 fC2 hp (Or.inr ?_)
  intro r hr
  simp only [fC2, List.mem_cons, List.not_mem_nil, or_false] at hr
  rcases hr with h | h | h <;> subst h <;> rfl

/-- C4 counterexample: decoding the zero-length buffer DOES fail — the
envelope parses to defaults, the missing year header reads as 0, and
`datetime(0, 1, 1)` raises `ValueError` — contradicting the claim that
it returns an empty `TimeSeries` with no error. -/
theorem C4_counterexample : parse_to_dataframe Buffer.empty = Except.error PyError.valueError := by
  norm_num [parse_to_dataframe, ParseFromString, Payload.infoYear]

/-- C4 (amended): decoding a zero-length byte buffer fails: the envelope
itself parses (to an empty sample list with no year header), but the
defaulted year 0 makes the base-date construction raise `ValueError`, so
no `TimeSeries` is produced. -/
theorem C4_empty_buffer :
    ParseFromString Buffer.empty = Except.ok { info := none, sample := [] } ∧
    parse_to_dataframe Buffer.empty = Except.error PyError.valueError := by
  refine ⟨rfl, ?_⟩
  norm_num [parse_to_dataframe, ParseFromString, Payload.infoYear]

/-- C6: for every decoded record, an empty value array yields an absent
value with severity and status still populated from the record, and a
nonempty array yields its first element with the rest dropped
(`val.head?`); decode succeeds regardless of array length. -/
theorem C6_scalar_extraction (info : Option PayloadInfo) (samples : List PBSample)
    (f : Frame) (hp : parse_to_dataframe (Buffer.wellFormed info samples) = .ok f)
    (i : ℕ) (hi : i < samples.length) :
    f.rows.length = samples.length ∧
    (f.rows.getD i defaultRow).value = (samples.getD i defaultSample).val.head? ∧
    (f.rows.getD i defaultRow).severity = (samples.getD i defaultSample).severity ∧
    (f.rows.getD i defaultRow).status = (samples.getD i defaultSample).status := by
  obtain ⟨hy, hrows⟩ := parse_ok_elim info samples f hp
  rw [hrows, getD_map_row samples _ i hi]
  exact ⟨by rw [List.length_map], rfl, rfl, rfl⟩

/-- Witness for C6: the empty-array record decodes to an absent value
with severity 7 / status 8 kept; the three-element record to value 3
(elements 4 and 5 dropped) — and the decode raised no error. -/
theorem C6_scalar_extraction_witness :
    parse_to_dataframe bC6 = Except.ok fC6 ∧
    (fC6.rows.getD 0 defaultRow).value = none ∧
    (fC6.rows.getD 0 defaultRow).severity = 7 ∧
    (fC6.rows.getD 0 defaultRow).status = 8 ∧
    (fC6.rows.getD 1 defaultRow).value = some 3 := by
  have hp : parse_to_dataframe bC6 = Except.ok fC6 := by
    norm_num [parse_to_dataframe, ParseFromString, bC6, fC6, Payload.infoYear,
      yearEpochSeconds, daysBeforeYear, rowOfSample, sampleTimestamp, tsInRange,
      tsMin, tsMax]
  obtain ⟨-, h0v, h0sev, h0st⟩ :=
    C6_scalar_extraction (some { year := some 2024 }) _ fC6 hp 0 (by norm_num)
  obtain ⟨-, h1v, -, -⟩ :=
    C6_scalar_extraction (some { year := some 2024 }) _ fC6 hp 1 (by norm_num)
  refine ⟨hp, ?_, ?_, ?_, ?_⟩
  · rw [h0v]; rfl
  · rw [h0sev]; rfl
  · rw [h0st]; rfl
  · rw [h1v]; rfl

/-- C7: a buffer whose envelope parses but lacks the year header fails —
the year reads as 0 and the base-date construction raises `ValueError`,
the failure the spec names `DecodeError::MissingYear` — while a buffer
that does not parse as the envelope fails with the protobuf
`DecodeError` (the spec's `DecodeError::Malformed`); the two failure
modes are distinct. -/
theorem C7_decode_failure_modes (info : Option PayloadInfo) (samples : List PBSample)
    (hmiss : info = none ∨ info = some { year := none }) :
    parse_to_dataframe (Buffer.wellFormed info samples) = Except.error PyError.valueError ∧
    parse_to_dataframe Buffer.malformed = Except.error (PyError.protoDecode ProtoError.malformed) ∧
    PyError.valueError ≠ PyError.protoDecode ProtoError.malformed := by
  refine ⟨?_, rfl, by simp⟩
  have hy : (Payload.mk info samples).infoYear = 0 := by
    rcases hmiss with h | h <;> subst h <;> simp [Payload.infoYear]
  simp only [parse_to_dataframe, ParseFromString]
  rw [hy]
  norm_num

/-- Witness for C7: a concrete envelope with one sample and no header at
all. -/
theorem C7_decode_failure_modes_witness :
    parse_to_dataframe (Buffer.wellFormed none
      [{ val := [1], secondsintoyear := 0, nano := 0, severity := 0, status := 0 }])
      = Except.error PyError.valueError ∧
    parse_to_dataframe Buffer.malformed = Except.error (PyError.protoDecode ProtoError.malformed) ∧
    PyError.valueError ≠ PyError.protoDecode ProtoError.malformed :=
  C7_decode_failure_modes none
    [{ val := [1], secondsintoyear := 0, nano := 0, severity := 0, status := 0 }]
    (Or.inl rfl)

/-- C3 counterexample: on a series whose first sample is absent and whose
second sample is present with value 5, the report's `first_value` is NaN
(the literal `iloc[0]` cell), not the later present value 5 as the claim
states. -/
theorem C3_counterexample :
    (statsOf (get_pv_statistics bC3)).map (fun st => st.first_value) = some PyFloat.nan ∧
    PyFloat.nan ≠ PyFloat.num 5 := by
  refine ⟨?_, by simp⟩
  have hp : parse_to_dataframe bC3 = Except.ok fC3 := by
    norm_num [parse_to_dataframe, ParseFromString, bC3, fC3, Payload.infoYear,
      yearEpochSeconds, daysBeforeYear, rowOfSample, sampleTimestamp, tsInRange,
      tsMin, tsMax]
  rw [stats_ok_eval bC3 fC3 hp
    (by simp [presentValues, fC3, List.filterMap_cons, List.filterMap_nil])]
  simp [statsOf, fC3, pyOfOpt]

/-- C3 (amended): `first_value`/`last_value` are the literal first and
last samples' values (`iloc[0]`/`iloc[-1]`), rendered as NaN when that
sample's value is absent — not the first/last present value. -/
theorem C3_first_last_literal (b : Buffer) (f : Frame)
    (hp : parse_to_dataframe b = .ok f) (hne : presentValues f.rows ≠ []) :
    (statsOf (get_pv_statistics b)).map (fun st => st.first_value)
      = some (pyOfOpt (f.rows.head?.bind (fun r => r.value))) ∧
    (statsOf (get_pv_statistics b)).map (fun st => st.last_value)
      = some (pyOfOpt (f.rows.getLast?.bind (fun r => r.value))) := by
  rw [stats_ok_eval b f hp hne]
  exact ⟨rfl, rfl⟩

/-- Witness for C3 (amended) at `bC3`: `first_value` is the absent first
cell (NaN) and `last_value` the literal last cell (5). -/
theorem C3_first_last_literal_witness :
    (statsOf (get_pv_statistics bC3)).map (fun st => st.first_value) = some (pyOfOpt none) ∧
    (statsOf (get_pv_statistics bC3)).map (fun st => st.last_value) = some (pyOfOpt (some 5)) := by
  have hp : parse_to_dataframe bC3 = Except.ok fC3 := by
    norm_num [parse_to_dataframe, ParseFromString, bC3, fC3, Payload.infoYear,
      yearEpochSeconds, daysBeforeYear, rowOfSample, sampleTimestamp, tsInRange,
      tsMin, tsMax]
  have h := C3_first_last_literal bC3 fC3 hp (by simp [presentValues, fC3])
  simpa [fC3, List.getLast?] using h

/-- C5: for every series with exactly one present value `v`, the
statistics request succeeds with mean, min, max and median all equal to
`v` and the standard deviation reported as NaN (absent), not 0.0. -/
theorem C5_single_present_value (b : Buffer) (f : Frame) (v : ℚ)
    (hp : parse_to_dataframe b = .ok f)
    (hv : presentValues f.rows = [v]) :
    statsOf (get_pv_statistics b) =
      some { count := f.rows.length
             mean := .num v
             median := .num v
             var := PyFloat.nan
             min := .num v
             max := .num v
             first_value := pyOfOpt (f.rows.head?.bind (fun r => r.value))
             last_value := pyOfOpt (f.rows.getLast?.bind (fun r => r.value)) } := by
  have hne : presentValues f.rows ≠ [] := by rw [hv]; simp
  rw [stats_ok_eval b f hp hne]
  simp only [statsOf, hv]
  norm_num [pandasMean, pandasMedian, pandasVarSq, pandasMin, pandasMax, sortedVals,
    List.insertionSort, List.orderedInsert]

/-- Witness for C5 at `bC5` (values: absent, 7): the report has
mean = min = max = median = 7, count 2 and a NaN standard deviation. -/
theorem C5_single_present_value_witness :
    statsOf (get_pv_statistics bC5) =
      some { count := 2, mean := .num 7, median := .num 7, var := PyFloat.nan,
             min := .num 7, max := .num 7, first_value := PyFloat.nan,
             last_value := .num 7 } := by
  have hp : parse_to_dataframe bC5 = Except.ok fC5 := by
    norm_num [parse_to_dataframe, ParseFromString, bC5, fC5, Payload.infoYear,
      yearEpochSeconds, daysBeforeYear, rowOfSample, sampleTimestamp, tsInRange,
      tsMin, tsMax]
  have h := C5_single_present_value bC5 fC5 7 hp
    (by simp [presentValues, fC5, List.filterMap_cons, List.filterMap_nil])
  simpa [fC5, List.getLast?, pyOfOpt] using h

/-- C8 counterexample: on a series whose present values are `[1]` but
whose literal last sample is absent, `last_value` is NaN — so
`last_value` is NOT computed over the non-absent values only, refuting
the claim's universal list of fields. -/
theorem C8_counterexample :
    (statsOf (get_pv_statistics bC8)).map (fun st => st.last_value) = some PyFloat.nan ∧
    PyFloat.nan ≠ PyFloat.num 1 := by
  refine ⟨?_, by simp⟩
  have hp : parse_to_dataframe bC8 = Except.ok fC8 := by
    norm_num [parse_to_dataframe, ParseFromString, bC8, fC8, Payload.infoYear,
      yearEpochSeconds, daysBeforeYear, rowOfSample, sampleTimestamp, tsInRange,
      tsMin, tsMax]
  rw [stats_ok_eval bC8 fC8 hp
    (by simp [presentValues, fC8, List.filterMap_cons, List.filterMap_nil])]
  simp [statsOf, fC8, pyOfOpt, List.getLast?]

/-- C8 (amended): mean, median, std, min and max are computed over the
non-absent values only, with the median of an even present-valued count
averaging the two middle sorted elements (present values `[1,2,3,4]`
give median `2.5`); `first_value`/`last_value` are instead the literal
first/last samples (NaN when absent). -/
theorem C8_aggregates_over_present (b : Buffer) (f : Frame)
    (hp : parse_to_dataframe b = .ok f) (hne : presentValues f.rows ≠ []) :
    (statsOf (get_pv_statistics b)).map
        (fun st => (st.mean, st.median, st.var, st.min, st.max))
      = some (pandasMean (presentValues f.rows), pandasMedian (presentValues f.rows),
              pandasVarSq (presentValues f.rows), pandasMin (presentValues f.rows),
              pandasMax (presentValues f.rows)) ∧
    pandasMedian [1, 2, 3, 4] = PyFloat.num (5 / 2) := by
  refine ⟨?_, ?_⟩
  · rw [stats_ok_eval b f hp hne]
    rfl
  · norm_num [pandasMedian, sortedVals, List.insertionSort, List.orderedInsert]

/-- Witness for C8 at `bC8w` (values 3, 1, absent, 4, 2): the aggregates
are those of the present values `[3,1,4,2]` — mean `5/2`, median `5/2`
(the two middle sorted elements averaged), squared std `5/3`, min 1,
max 4. -/
theorem C8_aggregates_over_present_witness :
    (statsOf (get_pv_statistics bC8w)).map
        (fun st => (st.mean, st.median, st.var, st.min, st.max))
      = some (PyFloat.num (5 / 2), PyFloat.num (5 / 2), PyFloat.num (5 / 3),
              PyFloat.num 1, PyFloat.num 4) ∧
    pandasMedian [1, 2, 3, 4] = PyFloat.num (5 / 2) := by
  have hp : parse_to_dataframe bC8w = Except.ok fC8w := by
    norm_num [parse_to_dataframe, ParseFromString, bC8w, fC8w, Payload.infoYear,
      yearEpochSeconds, daysBeforeYear, rowOfSample, sampleTimestamp, tsInRange,
      tsMin, tsMax]
  obtain ⟨h, hmed⟩ := C8_aggregates_over_present bC8w fC8w hp
    (by simp [presentValues, fC8w, List.filterMap_cons, List.filterMap_nil])
  refine ⟨?_, hmed⟩
  rw [h]
  norm_num [presentValues, fC8w, List.filterMap_cons, List.filterMap_nil,
    pandasMean, pandasMedian, pandasVarSq, pandasMin, pandasMax, sortedVals,
    List.insertionSort, List.orderedInsert, List.sum_cons, List.sum_nil]

/-- C9 counterexample: on a decodable buffer with zero samples the
summary variant SUCCEEDS, returning count 0 with `None` statistics,
while the full statistics operation fails — refuting the claim that the
summary fails under the same rule. -/
theorem C9_counterexample :
    get_pv_data_summary bC9 = Except.ok
      { sample_count := 0, mean := none, var := none, min := none, max := none } ∧
    get_pv_statistics bC9 = Except.error PyError.keyError := by
  constructor
  · norm_num [get_pv_data_summary, parse_to_dataframe, ParseFromString, bC9,
      Payload.infoYear, presentValues]
  · norm_num [get_pv_statistics, parse_to_dataframe, ParseFromString, bC9,
      Payload.infoYear, presentValues]

/-- C9 (amended): the summary variant reports only count, mean, std,
min, max; on empty input it succeeds with `None` statistics, on
all-absent input it succeeds with NaN statistics, while the full
statistics operation fails on both. -/
theorem C9_summary_no_failure (b : Buffer) (f : Frame)
    (hp : parse_to_dataframe b = .ok f)
    (habs : ∀ r ∈ f.rows, r.value = none) :
    (f.rows = [] →
      get_pv_data_summary b = Except.ok
        { sample_count := 0, mean := none, var := none, min := none, max := none }) ∧
    (f.rows ≠ [] →
      get_pv_data_summary b = Except.ok
        { sample_count := f.rows.length, mean := some PyFloat.nan,
          var := some PyFloat.nan, min := some PyFloat.nan, max := some PyFloat.nan }) ∧
    (get_pv_statistics b = Except.error PyError.keyError ∨
     get_pv_statistics b = Except.error PyError.typeError) := by
  have hpres := presentValues_eq_nil f.rows habs
  refine ⟨?_, ?_, stats_fails_of_allAbsent b f hp habs⟩
  · intro h
    simp only [get_pv_data_summary, hp, hpres, h]
    norm_num
  · intro h
    have hlen : 0 < f.rows.length := List.length_pos.mpr h
    simp only [get_pv_data_summary, hp, hpres]
    rw [if_pos hlen, if_pos hlen, if_pos hlen, if_pos hlen]
    norm_num [pandasMean, pandasVarSq, pandasMin, pandasMax]

/-- Witness for C9 at `bC9w` (two samples, both absent): the summary
succeeds with NaN statistics while the statistics operation fails. -/
theorem C9_summary_no_failure_witness :
    get_pv_data_summary bC9w = Except.ok
      { sample_count := 2, mean := some PyFloat.nan, var := some PyFloat.nan,
        min := some PyFloat.nan, max := some PyFloat.nan } ∧
    (get_pv_statistics bC9w = Except.error PyError.keyError ∨
     get_pv_statistics bC9w = Except.error PyError.typeError) := by
  have hp : parse_to_dataframe bC9w = Except.ok fC9w := by
    norm_num [parse_to_dataframe, ParseFromString, bC9w, fC9w, Payload.infoYear,
      yearEpochSeconds, daysBeforeYear, rowOfSample, sampleTimestamp, tsInRange,
      tsMin, tsMax]
  have habs : ∀ r ∈ fC9w.rows, r.value = none := by
    intro r hr
    simp only [fC9w, List.mem_cons, List.not_mem_nil, or_false] at hr
    rcases hr with h | h <;> subst h <;> rfl
  obtain ⟨-, h2, h3⟩ := C9_summary_no_failure bC9w fC9w hp habs
  exact ⟨by simpa [fC9w] using h2 (by simp [fC9w]), h3⟩

/-- C10 (code bug): `parse_to_dict` never produces the dictionary its
docstring promises: on a nonempty frame `df['timestamp'].dt.isoformat()`
raises `AttributeError` (the pandas `.dt` accessor has no `isoformat`
method), and on an empty frame `df['timestamp']` raises `KeyError`; in
particular it fails on a decodable one-sample buffer. -/
theorem C10_parse_to_dict_never_returns :
    (∀ b, (parse_to_dict b).toOption = none) ∧
    parse_to_dict bC10 = Except.error PyError.attributeError := by
  constructor
  · intro b
    unfold parse_to_dict
    cases hp : parse_to_dataframe b with
    | error e => rfl
    | ok f =>
      by_cases h : f.rows = [] <;> simp [h, Except.toOption]
  · norm_num [parse_to_dict, parse_to_dataframe, ParseFromString, bC10,
      Payload.infoYear, yearEpochSeconds, daysBeforeYear, rowOfSample,
      sampleTimestamp, tsInRange, tsMin, tsMax]

end Archiver
